import Mathlib

/-!
Verification development for `src/javascript-version/server.py`, a small
Python HTTP server that serves static files and proxies one POST route to a
backend service, adding CORS headers to every response.

The embedding below translates the handler code into pure Lean functions.
An HTTP response is modelled as a status code, an ordered list of the
headers the handler code emits, and a body (the byte string is modelled as
a `String`).  Side effects of one handled request are tracked explicitly:
the lines printed to the operator console, the outbound upstream calls
made, and the number of seconds the handler spends blocked on the outbound
call.  The behaviour of the upstream backend during the single attempt is
an explicit parameter (`UpstreamBehaviour`), and the semantics of
`requests.post` with a timeout is modelled on top of it.
-/

namespace KarjiStore

/-- `PORT = 8080` in server.py. -/
def PORT : Nat := 8080

/-- `BACKEND_URL = "http://localhost:5000"` in server.py. -/
def BACKEND_URL : String := "http://localhost:5000"

/-- The fixed `timeout=10` argument passed to `requests.post`. -/
def REQUEST_TIMEOUT : Nat := 10

/-- One HTTP header line: a name and a value. -/
structure Header where
  name : String
  value : String
deriving DecidableEq

/-- An HTTP response as the handler produces it: status code, the header
lines emitted by the handler code, and the body bytes (modelled as a
`String`). -/
structure Response where
  status : Nat
  headers : List Header
  body : String
deriving DecidableEq

/-- The `Access-Control-Allow-Origin: *` header. -/
def cors_origin : Header :=
  { name := "Access-Control-Allow-Origin", value := "*" }

/-- The `Access-Control-Allow-Methods: POST, GET, OPTIONS` header. -/
def cors_methods : Header :=
  { name := "Access-Control-Allow-Methods", value := "POST, GET, OPTIONS" }

/-- The `Access-Control-Allow-Headers: Content-Type` header. -/
def cors_allowed : Header :=
  { name := "Access-Control-Allow-Headers", value := "Content-Type" }

/-- Embeds the overridden `end_headers` method: before the header block is
finalised, `self.send_header('Access-Control-Allow-Origin', '*')` appends
the CORS origin header to whatever headers the responder already sent.
Every response built below finalises its header list through this
function, exactly as every code path in the Python handler reaches the
overridden `end_headers`. -/
def end_headers (hs : List Header) : List Header :=
  hs ++ [cors_origin]

/-- Models the HTML error document that the base class `send_error`
writes: a fixed template mentioning the numeric code and the message.
(The exact stdlib template text is richer; the model keeps the shape that
matters: the body is built only from the code and the message passed to
`send_error`.) -/
def error_body (code : Nat) (message : String) : String :=
  "<html><head><title>Error response</title></head><body><h1>Error response</h1><p>Error code: "
    ++ toString code ++ "</p><p>Message: " ++ message ++ ".</p></body></html>"

/-- Embeds `self.send_error(code, message)`: status `code`, an HTML error
body built from `code` and `message`, a `text/html` content type, and the
CORS origin header appended by the overridden `end_headers` (which
`send_error` reaches like every other responder). -/
def send_error (code : Nat) (message : String) : Response :=
  { status := code
  , headers := end_headers [{ name := "Content-Type", value := "text/html;charset=utf-8" }]
  , body := error_body code message }

/-- What the upstream backend does during a single proxied attempt. -/
inductive UpstreamBehaviour where
  /-- The backend answers after `afterSeconds` seconds with this status
  code, `Content-Type` header and body. -/
  | responds (afterSeconds : Nat) (contentTypeHdr : String) (statusCode : Nat) (respBody : String)
  /-- The connection is refused or the host is unreachable
  (`requests.exceptions.ConnectionError`). -/
  | refusesConnection
  /-- The backend never answers. -/
  | hangs
  /-- Some other failure (malformed response, I/O error, unexpected
  exception) carrying this detail text. -/
  | failsOtherwise (detail : String)
deriving DecidableEq

/-- The outcome of the `requests.post` call as the caller observes it. -/
inductive UpstreamOutcome where
  | ok (contentTypeHdr : String) (statusCode : Nat) (respBody : String)
  /-- `requests.exceptions.ConnectionError` was raised. -/
  | connectionError
  /-- The timeout elapsed and a timeout exception was raised. -/
  | timedOut
  /-- Some other exception was raised, carrying this detail text. -/
  | otherFailure (detail : String)
deriving DecidableEq

/-- Models `requests.post(..., timeout=t)` against a backend showing the
given behaviour: the observed outcome, paired with the number of seconds
the call blocks before returning or raising.  A backend that answers only
after the timeout, or never, raises the timeout exception after exactly
`t` seconds; a refused connection and other immediate failures raise at
once. -/
def requests_post (t : Nat) (b : UpstreamBehaviour) : UpstreamOutcome × Nat :=
  match b with
  | .responds s ct code body =>
      if s ≤ t then (.ok ct code body, s) else (.timedOut, t)
  | .refusesConnection => (.connectionError, 0)
  | .hangs => (.timedOut, t)
  | .failsOtherwise d => (.otherFailure d, 0)

/-- An incoming HTTP request as the handler sees it. -/
structure Request where
  method : String
  path : String
  /-- `self.headers['Content-Length']`: `none` models an absent header. -/
  contentLengthHdr : Option String
  /-- The incoming `Content-Type` header, if any (the handler never reads
  it; it is carried so that claims about it can be stated). -/
  contentTypeHdr : Option String
  /-- The raw request body bytes available on `self.rfile`. -/
  reqBody : String
deriving DecidableEq

/-- One outbound POST made by the proxy: the arguments the code passes to
`requests.post`. -/
structure OutboundPost where
  url : String
  data : String
  contentTypeHdr : String
  timeoutSeconds : Nat
deriving DecidableEq

/-- Strips whitespace from both ends of a character list. -/
def pyStrip (cs : List Char) : List Char :=
  ((cs.dropWhile Char.isWhitespace).reverse.dropWhile Char.isWhitespace).reverse

/-- Models Python `int(s)` applied to a string: surrounding whitespace is
stripped, an optional single sign is allowed, and at least one decimal
digit must follow; `none` models the `ValueError` raised otherwise. -/
def pyInt (s : String) : Option Int :=
  let t := pyStrip s.toList
  let core := match t with
    | '-' :: rest => rest
    | '+' :: rest => rest
    | _ => t
  if (!core.isEmpty) && core.all Char.isDigit then
    let n : Nat := core.foldl (fun a c => a * 10 + (c.toNat - 48)) 0
    some (match t with
      | '-' :: _ => -(n : Int)
      | _ => (n : Int))
  else none

/-- Models `int(self.headers['Content-Length'])`: an absent header gives
`None` and `int(None)` raises `TypeError`; a present header is parsed as a
decimal integer, raising `ValueError` on bad syntax.  `none` models either
exception. -/
def pyIntOfHeader : Option String → Option Int
  | none => none
  | some s => pyInt s

/-- Models `self.rfile.read(n)`: a nonnegative `n` reads the first `n`
bytes of the request body; a negative `n` reads everything. -/
def rfile_read (body : String) (n : Int) : String :=
  if n < 0 then body else String.mk (body.toList.take n.toNat)

/-- Everything one handled request produces: the HTTP response sent to the
client, the lines printed to the operator console, the outbound upstream
calls made, and the seconds spent blocked on the outbound call. -/
structure HandlerResult where
  response : Response
  console : List String
  outbound : List OutboundPost
  blockedSeconds : Nat
deriving DecidableEq

/-- A handler result with no console output, no upstream call and no
blocking: just the response. -/
def pureResult (r : Response) : HandlerResult :=
  { response := r, console := [], outbound := [], blockedSeconds := 0 }

/-- Embeds `proxy_to_backend`.  The `try` body reads
`int(self.headers['Content-Length'])` — if that raises (absent or
malformed header) control falls to the generic `except Exception` clause,
which prints the detail and sends a 500.  Otherwise the body is read and
forwarded by `requests.post` to `BACKEND_URL + "/api/track-order"` with a
fixed `Content-Type: application/json` header and `timeout=10`.  On
success the upstream status code and body are relayed with
`Content-Type: application/json` and the three CORS headers (plus the
origin header appended again by `end_headers`).  A
`requests.exceptions.ConnectionError` is answered with
`send_error(503, "Backend service unavailable")`; any other exception is
printed to the console and answered with
`send_error(500, "Internal server error")`. -/
def proxy_to_backend (upstream : UpstreamBehaviour) (req : Request) : HandlerResult :=
  match pyIntOfHeader req.contentLengthHdr with
  | none =>
      { response := send_error 500 "Internal server error"
      , console := ["Proxy error: bad Content-Length header"]
      , outbound := []
      , blockedSeconds := 0 }
  | some content_length =>
      let post_data := rfile_read req.reqBody content_length
      let out : OutboundPost :=
        { url := BACKEND_URL ++ "/api/track-order"
        , data := post_data
        , contentTypeHdr := "application/json"
        , timeoutSeconds := REQUEST_TIMEOUT }
      match requests_post REQUEST_TIMEOUT upstream with
      | (.ok _upstreamCT code body, t) =>
          { response :=
              { status := code
              , headers := end_headers
                  [{ name := "Content-Type", value := "application/json" },
                   cors_origin, cors_methods, cors_allowed]
              , body := body }
          , console := []
          , outbound := [out]
          , blockedSeconds := t }
      | (.connectionError, t) =>
          { response := send_error 503 "Backend service unavailable"
          , console := []
          , outbound := [out]
          , blockedSeconds := t }
      | (.timedOut, t) =>
          { response := send_error 500 "Internal server error"
          , console := ["Proxy error: request timed out"]
          , outbound := [out]
          , blockedSeconds := t }
      | (.otherFailure d, t) =>
          { response := send_error 500 "Internal server error"
          , console := ["Proxy error: " ++ d]
          , outbound := [out]
          , blockedSeconds := t }

/-- Embeds `do_POST`: the path `/api/track-order` is proxied to the
backend; any other path is answered with
`send_error(404, "API endpoint not found")` without touching the
upstream. -/
def do_POST (upstream : UpstreamBehaviour) (req : Request) : HandlerResult :=
  if req.path = "/api/track-order" then proxy_to_backend upstream req
  else pureResult (send_error 404 "API endpoint not found")

/-- Embeds `do_OPTIONS`: status 200, the three CORS headers, empty body;
the overridden `end_headers` appends the origin header once more. -/
def do_OPTIONS : Response :=
  { status := 200
  , headers := end_headers [cors_origin, cors_methods, cors_allowed]
  , body := "" }

/-- Basic content type inference for static files, as the spec describes
it for the inherited file server. -/
def guessContentType (path : String) : String :=
  if path.endsWith ".html" then "text/html"
  else if path.endsWith ".js" then "text/javascript"
  else if path.endsWith ".css" then "text/css"
  else if path.endsWith ".json" then "application/json"
  else "application/octet-stream"

/-- Modelled from the spec: GET serving is inherited from
`http.server.SimpleHTTPRequestHandler`, whose implementation is not part
of this repository (the handler only fixes its root directory to
`javascript-version`).  Per the spec, a request path that resolves to an
existing regular file under the static root is served with status 200, an
inferred content type and the file bytes; a path that resolves to no file
is answered 404.  `fs` maps a request path to the bytes of the file it
resolves to under the static root, if any; the inherited code also runs
through the overridden `end_headers`. -/
def do_GET (fs : String → Option String) (path : String) : Response :=
  match fs path with
  | some bytes =>
      { status := 200
      , headers := end_headers [{ name := "Content-Type", value := guessContentType path }]
      , body := bytes }
  | none => send_error 404 "File not found"

/-- Modelled from the spec: HEAD is served like GET by the inherited file
server, with the body omitted. -/
def do_HEAD (fs : String → Option String) (path : String) : Response :=
  { do_GET fs path with body := "" }

/-- One request dispatched through the handler: the base class dispatches
on the method name to `do_POST`, `do_OPTIONS`, the inherited `do_GET` and
`do_HEAD`, and answers any other method with a 501 error (base class
behaviour). -/
def handle_request (fs : String → Option String) (upstream : UpstreamBehaviour)
    (req : Request) : HandlerResult :=
  if req.method = "POST" then do_POST upstream req
  else if req.method = "OPTIONS" then pureResult do_OPTIONS
  else if req.method = "GET" then pureResult (do_GET fs req.path)
  else if req.method = "HEAD" then pureResult (do_HEAD fs req.path)
  else pureResult (send_error 501 ("Unsupported method " ++ req.method))

/-- Models the exception handling in `main` around the server loop: if
binding the listening socket raises `OSError` with the given error
number, `main` prints one message — the dedicated port-in-use message
when `errno == 48`, a generic server-error message otherwise — and then
returns normally, so the interpreter exits with status 0.  The returned
pair is (lines printed, process exit status). -/
def main_on_bind_failure (errno : Nat) : List String × Nat :=
  if errno = 48 then
    (["❌ Port " ++ toString PORT ++ " is already in use. Try a different port."], 0)
  else
    (["❌ Server error: [Errno " ++ toString errno ++ "]"], 0)

/-- True of the upstream behaviours on which the single `requests.post`
attempt fails (raises), rather than returning a response. -/
def attempt_fails : UpstreamBehaviour → Bool
  | .responds s _ _ _ => REQUEST_TIMEOUT < s
  | _ => true

/-- True exactly of the behaviour observed as
`requests.exceptions.ConnectionError` (connection refused or host
unreachable). -/
def is_conn_error : UpstreamBehaviour → Bool
  | .refusesConnection => true
  | _ => false

/-- A sample request aimed at the proxy path, used by the concrete
witnesses below. -/
def sampleReq : Request :=
  { method := "POST"
  , path := "/api/track-order"
  , contentLengthHdr := some "3"
  , contentTypeHdr := some "application/json"
  , reqBody := "xyz" }

/-- A sample static filesystem with a single file. -/
def sampleFs : String → Option String :=
  fun p => if p = "/index.html" then some "<html></html>" else none

/-! ## Theorems -/

theorem cors_origin_mem_end_headers (hs : List Header) :
    cors_origin ∈ end_headers hs := by
  simp [end_headers]

theorem cors_origin_mem_send_error (code : Nat) (message : String) :
    cors_origin ∈ (send_error code message).headers :=
  cors_origin_mem_end_headers _

theorem cors_origin_mem_proxy (upstream : UpstreamBehaviour) (req : Request) :
    cors_origin ∈ (proxy_to_backend upstream req).response.headers := by
  unfold proxy_to_backend
  cases pyIntOfHeader req.contentLengthHdr with
  | none => exact cors_origin_mem_send_error _ _
  | some n =>
      simp only
      rcases h : requests_post REQUEST_TIMEOUT upstream with ⟨outcome, t⟩
      cases outcome <;> simp only [h] <;> exact cors_origin_mem_end_headers _

theorem cors_origin_mem_do_POST (upstream : UpstreamBehaviour) (req : Request) :
    cors_origin ∈ (do_POST upstream req).response.headers := by
  unfold do_POST
  split
  · exact cors_origin_mem_proxy upstream req
  · exact cors_origin_mem_send_error _ _

theorem cors_origin_mem_do_GET (fs : String → Option String) (path : String) :
    cors_origin ∈ (do_GET fs path).headers := by
  unfold do_GET
  cases fs path with
  | none => exact cors_origin_mem_send_error _ _
  | some bytes => exact cors_origin_mem_end_headers _

/-- C3: every response the server emits — static-file responses, proxy
responses, preflight responses, and error responses such as 404/503/500 —
includes the header `Access-Control-Allow-Origin: *`, appended by the
overridden `end_headers` as the final step before the header block is
finalised, regardless of which responder produced the body. -/
theorem every_response_has_allow_origin_star (fs : String → Option String)
    (upstream : UpstreamBehaviour) (req : Request) :
    cors_origin ∈ (handle_request fs upstream req).response.headers := by
  unfold handle_request
  split
  · exact cors_origin_mem_do_POST upstream req
  · split
    · exact cors_origin_mem_end_headers _
    · split
      · exact cors_origin_mem_do_GET fs req.path
      · split
        · exact cors_origin_mem_do_GET fs req.path
        · exact cors_origin_mem_send_error _ _

/-- C4: every OPTIONS request, on any path, is answered with status 200,
an empty body, and exactly the CORS headers
`Access-Control-Allow-Origin: *`,
`Access-Control-Allow-Methods: POST, GET, OPTIONS` and
`Access-Control-Allow-Headers: Content-Type`, each with exactly that
value (the origin header is emitted twice, both times with value `*`:
once by `do_OPTIONS` and once more by the overridden `end_headers`). -/
theorem options_response_contract :
    do_OPTIONS.status = 200 ∧ do_OPTIONS.body = "" ∧
    do_OPTIONS.headers = [cors_origin, cors_methods, cors_allowed, cors_origin] := by
  refine ⟨rfl, rfl, ?_⟩
  simp [do_OPTIONS, end_headers]

/-- C7: a POST request whose path is not `/api/track-order` is answered
with status 404 and the error document built from the message
"API endpoint not found", and the upstream is never contacted. -/
theorem post_other_path_404 (upstream : UpstreamBehaviour) (req : Request)
    (h : req.path ≠ "/api/track-order") :
    (do_POST upstream req).response.status = 404 ∧
    (do_POST upstream req).response.body = error_body 404 "API endpoint not found" ∧
    (do_POST upstream req).outbound = [] := by
  unfold do_POST
  simp [h, pureResult, send_error]

theorem post_other_path_404_witness :
    (do_POST .refusesConnection
        { method := "POST", path := "/api/other", contentLengthHdr := some "3",
          contentTypeHdr := none, reqBody := "xyz" }).response.status = 404 ∧
    (do_POST .refusesConnection
        { method := "POST", path := "/api/other", contentLengthHdr := some "3",
          contentTypeHdr := none, reqBody := "xyz" }).response.body
      = error_body 404 "API endpoint not found" ∧
    (do_POST .refusesConnection
        { method := "POST", path := "/api/other", contentLengthHdr := some "3",
          contentTypeHdr := none, reqBody := "xyz" }).outbound = [] :=
  post_other_path_404 .refusesConnection _ (by decide)

/-- C10: a POST to `/api/track-order` whose `Content-Length` header is
absent or not a decimal integer makes `int(...)` raise; the exception is
caught by the generic `except` clause, so the handler still returns — the
server process does not crash — with the generic 500 error response, and
no upstream call is made. -/
theorem bad_content_length_500 (upstream : UpstreamBehaviour) (req : Request)
    (hpath : req.path = "/api/track-order")
    (hlen : pyIntOfHeader req.contentLengthHdr = none) :
    (do_POST upstream req).response = send_error 500 "Internal server error" ∧
    (do_POST upstream req).response.status = 500 ∧
    (do_POST upstream req).response.body = error_body 500 "Internal server error" ∧
    (do_POST upstream req).outbound = [] := by
  unfold do_POST proxy_to_backend
  simp [hpath, hlen, send_error]

theorem bad_content_length_500_witness :
    ((do_POST .hangs
        { method := "POST", path := "/api/track-order", contentLengthHdr := none,
          contentTypeHdr := none, reqBody := "" }).response.status = 500 ∧
      (do_POST .hangs
        { method := "POST", path := "/api/track-order", contentLengthHdr := none,
          contentTypeHdr := none, reqBody := "" }).outbound = []) ∧
    ((do_POST .hangs
        { method := "POST", path := "/api/track-order", contentLengthHdr := some "abc",
          contentTypeHdr := none, reqBody := "" }).response.status = 500 ∧
      (do_POST .hangs
        { method := "POST", path := "/api/track-order", contentLengthHdr := some "abc",
          contentTypeHdr := none, reqBody := "" }).outbound = []) := by
  constructor
  · have h := bad_content_length_500 .hangs
      { method := "POST", path := "/api/track-order", contentLengthHdr := none,
        contentTypeHdr := none, reqBody := "" } rfl rfl
    exact ⟨h.2.1, h.2.2.2⟩
  · have h := bad_content_length_500 .hangs
      { method := "POST", path := "/api/track-order", contentLengthHdr := some "abc",
        contentTypeHdr := none, reqBody := "" } rfl (by decide)
    exact ⟨h.2.1, h.2.2.2⟩

/-- C1: a POST to `/api/track-order` on which the upstream responds
before the timeout is relayed verbatim: the client receives the upstream
status code and body bytes unchanged, with a
`Content-Type: application/json` header and the CORS headers. -/
theorem proxy_success_relays_verbatim (req : Request) (n : Int) (s : Nat)
    (ct : String) (code : Nat) (body : String)
    (hpath : req.path = "/api/track-order")
    (hlen : pyIntOfHeader req.contentLengthHdr = some n)
    (ht : s ≤ REQUEST_TIMEOUT) :
    (do_POST (.responds s ct code body) req).response.status = code ∧
    (do_POST (.responds s ct code body) req).response.body = body ∧
    { name := "Content-Type", value := "application/json" }
      ∈ (do_POST (.responds s ct code body) req).response.headers ∧
    cors_origin ∈ (do_POST (.responds s ct code body) req).response.headers ∧
    cors_methods ∈ (do_POST (.responds s ct code body) req).response.headers ∧
    cors_allowed ∈ (do_POST (.responds s ct code body) req).response.headers := by
  unfold do_POST proxy_to_backend requests_post
  simp [hpath, hlen, ht, end_headers]

theorem proxy_success_relays_verbatim_witness :
    (do_POST (.responds 0 "text/html" 200 "ok") sampleReq).response.status = 200 ∧
    (do_POST (.responds 0 "text/html" 200 "ok") sampleReq).response.body = "ok" := by
  have h := proxy_success_relays_verbatim sampleReq 3 0 "text/html" 200 "ok"
    rfl (by decide) (by decide)
  exact ⟨h.1, h.2.1⟩

/-- C2: on a POST to `/api/track-order` whose upstream attempt fails, the
client receives 503 exactly when the failure is the connection-refused /
unreachable case (`requests.exceptions.ConnectionError`), and 500 for
every other failure (timeout, late response, any other exception).  For
the generic failures the response is the fixed generic 500 error document
— it does not depend on the failure detail, which is written to the
operator console instead. -/
theorem proxy_failure_dispatch (req : Request) (n : Int) (d : String)
    (hpath : req.path = "/api/track-order")
    (hlen : pyIntOfHeader req.contentLengthHdr = some n) :
    (∀ b : UpstreamBehaviour, attempt_fails b = true →
        ((do_POST b req).response.status = 503 ↔ is_conn_error b = true)) ∧
    (do_POST .refusesConnection req).response
      = send_error 503 "Backend service unavailable" ∧
    (do_POST .hangs req).response = send_error 500 "Internal server error" ∧
    (do_POST (.failsOtherwise d) req).response
      = send_error 500 "Internal server error" ∧
    ("Proxy error: " ++ d) ∈ (do_POST (.failsOtherwise d) req).console := by
  refine ⟨?_, ?_, ?_, ?_, ?_⟩
  · intro b hb
    cases b with
    | responds s ct code body =>
        have hs : ¬ s ≤ REQUEST_TIMEOUT :=
          Nat.not_le.mpr (of_decide_eq_true (by simpa [attempt_fails] using hb))
        unfold do_POST proxy_to_backend requests_post
        simp [hpath, hlen, hs, send_error, is_conn_error]
    | refusesConnection =>
        unfold do_POST proxy_to_backend requests_post
        simp [hpath, hlen, send_error, is_conn_error]
    | hangs =>
        unfold do_POST proxy_to_backend requests_post
        simp [hpath, hlen, send_error, is_conn_error]
    | failsOtherwise d2 =>
        unfold do_POST proxy_to_backend requests_post
        simp [hpath, hlen, send_error, is_conn_error]
  · unfold do_POST proxy_to_backend requests_post
    simp [hpath, hlen]
  · unfold do_POST proxy_to_backend requests_post
    simp [hpath, hlen]
  · unfold do_POST proxy_to_backend requests_post
    simp [hpath, hlen]
  · unfold do_POST proxy_to_backend requests_post
    simp [hpath, hlen]

theorem proxy_failure_dispatch_witness :
    (do_POST .refusesConnection sampleReq).response
      = send_error 503 "Backend service unavailable" ∧
    ("Proxy error: " ++ "boom") ∈ (do_POST (.failsOtherwise "boom") sampleReq).console := by
  have h := proxy_failure_dispatch sampleReq 3 "boom" rfl (by decide)
  exact ⟨h.2.1, h.2.2.2.2⟩

/-- C5: on a POST to `/api/track-order` with an upstream that hangs past
the fixed 10-second timeout, the handler still terminates (the embedding
is a total function) with a 500 response for the client, and the time the
handler spends blocked on the outbound call never exceeds the timeout,
for any upstream behaviour. -/
theorem proxy_timeout_bounded (req : Request) (n : Int)
    (hpath : req.path = "/api/track-order")
    (hlen : pyIntOfHeader req.contentLengthHdr = some n) :
    (do_POST .hangs req).response.status = 500 ∧
    (do_POST .hangs req).blockedSeconds = REQUEST_TIMEOUT ∧
    (∀ s ct code body, REQUEST_TIMEOUT < s →
        (do_POST (.responds s ct code body) req).response.status = 500 ∧
        (do_POST (.responds s ct code body) req).blockedSeconds = REQUEST_TIMEOUT) ∧
    (∀ b : UpstreamBehaviour, (do_POST b req).blockedSeconds ≤ REQUEST_TIMEOUT) := by
  refine ⟨?_, ?_, ?_, ?_⟩
  · unfold do_POST proxy_to_backend requests_post
    simp [hpath, hlen, send_error]
  · unfold do_POST proxy_to_backend requests_post
    simp [hpath, hlen]
  · intro s ct code body hs
    have hs' : ¬ s ≤ REQUEST_TIMEOUT := Nat.not_le.mpr hs
    unfold do_POST proxy_to_backend requests_post
    constructor
    · simp [hpath, hlen, hs', send_error]
    · simp [hpath, hlen, hs']
  · intro b
    cases b with
    | responds s ct code body =>
        by_cases hs : s ≤ REQUEST_TIMEOUT
        · unfold do_POST proxy_to_backend requests_post
          simp [hpath, hlen, hs]
        · unfold do_POST proxy_to_backend requests_post
          simp [hpath, hlen, hs]
    | refusesConnection =>
        unfold do_POST proxy_to_backend requests_post
        simp [hpath, hlen]
    | hangs =>
        unfold do_POST proxy_to_backend requests_post
        simp [hpath, hlen]
    | failsOtherwise d =>
        unfold do_POST proxy_to_backend requests_post
        simp [hpath, hlen]

theorem proxy_timeout_bounded_witness :
    (do_POST .hangs sampleReq).response.status = 500 ∧
    (do_POST .hangs sampleReq).blockedSeconds ≤ REQUEST_TIMEOUT := by
  have h := proxy_timeout_bounded sampleReq 3 rfl (by decide)
  exact ⟨h.1, le_of_eq h.2.1⟩

/-- A request aimed at the proxy path whose own `Content-Type` header is
`text/plain`, used to separate the forwarded content type from the
request content type. -/
def c6Req : Request :=
  { method := "POST"
  , path := "/api/track-order"
  , contentLengthHdr := some "3"
  , contentTypeHdr := some "text/plain"
  , reqBody := "xyz" }

/-- An upstream that answers at once with `Content-Type: text/html`. -/
def c6Upstream : UpstreamBehaviour := .responds 0 "text/html" 200 "ok"

/-- C6 counterexample: at this concrete input the server does not forward
the request content type (`text/plain`) — the single outbound call
carries the fixed `application/json` — and does not relay the upstream
content type (`text/html`) — the client sees only the fixed
`application/json` header.  So the claim that the request content-type is
forwarded and the upstream content-type relayed is false here. -/
theorem proxy_content_type_counterexample :
    (do_POST c6Upstream c6Req).outbound.map OutboundPost.contentTypeHdr
      = ["application/json"] ∧
    c6Req.contentTypeHdr = some "text/plain" ∧
    ("text/plain" : String) ≠ "application/json" ∧
    ({ name := "Content-Type", value := "text/html" } : Header)
      ∉ (do_POST c6Upstream c6Req).response.headers ∧
    ({ name := "Content-Type", value := "application/json" } : Header)
      ∈ (do_POST c6Upstream c6Req).response.headers := by
  refine ⟨by decide, rfl, by decide, by decide, by decide⟩

/-- C6 amended: the proxy forwards the request body (the first
`Content-Length` bytes read from the socket) to the fixed upstream base
URL plus the fixed sub-path with a fixed `Content-Type: application/json`
header and the fixed timeout, and relays the upstream status code and
body back to the client with a fixed `Content-Type: application/json`
response header (neither the request content type nor the upstream
content type is propagated). -/
theorem proxy_forwards_body_fixed_json (req : Request) (n : Int) (s : Nat)
    (ct : String) (code : Nat) (body : String)
    (hpath : req.path = "/api/track-order")
    (hlen : pyIntOfHeader req.contentLengthHdr = some n)
    (ht : s ≤ REQUEST_TIMEOUT) :
    (do_POST (.responds s ct code body) req).outbound =
      [{ url := BACKEND_URL ++ "/api/track-order"
       , data := rfile_read req.reqBody n
       , contentTypeHdr := "application/json"
       , timeoutSeconds := REQUEST_TIMEOUT }] ∧
    (do_POST (.responds s ct code body) req).response.status = code ∧
    (do_POST (.responds s ct code body) req).response.body = body ∧
    { name := "Content-Type", value := "application/json" }
      ∈ (do_POST (.responds s ct code body) req).response.headers := by
  unfold do_POST proxy_to_backend requests_post
  simp [hpath, hlen, ht, end_headers]

theorem proxy_forwards_body_fixed_json_witness :
    (do_POST (.responds 0 "text/html" 200 "ok") c6Req).outbound =
      [{ url := BACKEND_URL ++ "/api/track-order"
       , data := rfile_read c6Req.reqBody 3
       , contentTypeHdr := "application/json"
       , timeoutSeconds := REQUEST_TIMEOUT }] ∧
    (do_POST (.responds 0 "text/html" 200 "ok") c6Req).response.status = 200 := by
  have h := proxy_forwards_body_fixed_json c6Req 3 0 "text/html" 200 "ok"
    rfl (by decide) (by decide)
  exact ⟨h.1, h.2.1⟩

/-- C8: a GET whose path resolves to an existing regular file under the
static root is answered 200 with exactly the file bytes as the body; a
GET whose path resolves to no file is answered 404. -/
theorem static_get_contract (fs : String → Option String) (path : String)
    (bytes : String) :
    (fs path = some bytes →
      (do_GET fs path).status = 200 ∧ (do_GET fs path).body = bytes) ∧
    (fs path = none → (do_GET fs path).status = 404) := by
  constructor
  · intro h
    unfold do_GET
    simp [h]
  · intro h
    unfold do_GET
    simp [h, send_error]

theorem static_get_contract_witness :
    ((do_GET sampleFs "/index.html").status = 200 ∧
      (do_GET sampleFs "/index.html").body = "<html></html>") ∧
    (do_GET sampleFs "/missing.html").status = 404 :=
  ⟨(static_get_contract sampleFs "/index.html" "<html></html>").1 (by decide),
   (static_get_contract sampleFs "/missing.html" "").2 (by decide)⟩

/-- C9 counterexample: when the bind fails with the address-in-use error
number, the modelled process exit status is 0 — it is not the non-zero
exit status the claim requires (`main` catches the `OSError`, prints the
message, and returns normally, so the interpreter exits with status 0). -/
theorem bind_failure_exit_counterexample :
    ¬ (main_on_bind_failure 48).2 ≠ 0 := by decide

/-- C9 amended: on a bind failure the server prints one operator-facing
error message — the dedicated port-in-use message when the error number
is 48 — and the process exits with status 0 (not non-zero): `main`
catches the `OSError` and returns normally. -/
theorem bind_failure_prints_and_exits_zero (errno : Nat) :
    (main_on_bind_failure errno).2 = 0 ∧
    (errno = 48 →
      (main_on_bind_failure errno).1 =
        ["❌ Port " ++ toString PORT ++ " is already in use. Try a different port."]) := by
  constructor
  · unfold main_on_bind_failure
    split <;> rfl
  · intro h
    subst h
    rfl

theorem bind_failure_prints_and_exits_zero_witness :
    (main_on_bind_failure 48).2 = 0 ∧
    (main_on_bind_failure 48).1 =
      ["❌ Port " ++ toString PORT ++ " is already in use. Try a different port."] :=
  ⟨(bind_failure_prints_and_exits_zero 48).1,
   (bind_failure_prints_and_exits_zero 48).2 rfl⟩

end KarjiStore
